import Mathlib

/-!
Verification development for the Voiceflow–Assistant bridge (`src/main.py`).

The repository is a single FastAPI module.  Its core is the `/chat` handler
together with `run_assistant_and_get_reply`: append the user's message to a
remote thread, start a run, poll the run to a terminal status, extract the
assistant's reply (step-indexed primary path, thread-scan secondary path,
fixed sentinel), and on a non-`completed` terminal status fall back to a
stateless `responses.create` completion.

The module registers the route `/chat` twice; Starlette matches routes in
registration order, so the first handler (lines 167–225 of `src/main.py`,
the variant that wires the stateless fallback) is the one that serves
requests.  That handler is the one embedded here.

Remote behaviour is modelled by an `Env` of functions returning
`Except String _` (an `error` models a raised exception from the SDK call).
Every remote call, and every `asyncio.sleep`, is recorded in an effect
trace so that frame conditions ("no remote operation is invoked") are
provable.  The unbounded `while True` polling loop is modelled with
explicit fuel; exhausted fuel is a distinguished `diverge` outcome, so
non-termination of the source loop is visible in the model.
-/

namespace Bridge

/-- The nested `.text` object on a message content part (`txt` in the
source); its `value` attribute may be absent or `None`. -/
structure TextObj where
  value : Option String
deriving DecidableEq

/-- One content part of a message; `getattr(part, "text", None)` may be
absent, modelled as `none`. -/
structure ContentPart where
  text : Option TextObj
deriving DecidableEq

/-- A thread message: `role` and an optional list of content parts
(`getattr(m, "content", None)`). -/
structure Message where
  role : String
  content : Option (List ContentPart)
deriving DecidableEq

/-- The `message_creation` detail of a run step; `message_id` may be
absent or falsy. -/
structure MessageCreationDetail where
  message_id : Option String
deriving DecidableEq

/-- The `step_details` object of a run step; the `message_creation`
attribute may be absent (attribute access raising is caught in the
source's `try`/`except`). -/
structure StepDetails where
  message_creation : Option MessageCreationDetail
deriving DecidableEq

/-- One run step, as consumed by the source: its `type` attribute and its
`step_details` (either may be missing; a missing `step_details` makes the
attribute chain raise, which the source swallows). -/
structure RunStep where
  type : Option String
  step_details : Option StepDetails
deriving DecidableEq

/-- The `last_error` object of a run: optional `code` and `message`. -/
structure LastError where
  code : Option String
  message : Option String
deriving DecidableEq

/-- A run object as consumed by the source: `id`, `status`, `last_error`. -/
structure RunObj where
  id : String
  status : String
  last_error : Option LastError
deriving DecidableEq

/-- One output item of a stateless `responses.create` response:
`getattr(part, "type", "")` and `getattr(part, "content", [])`. -/
structure OutputItem where
  type : Option String
  content : Option (List ContentPart)
deriving DecidableEq

/-- A `responses.create` response: `output_text` (modelled `none` when the
attribute access raises, `some s` when it yields the string `s`) and the
optional `output` item list. -/
structure RespObj where
  output_text : Option String
  output : Option (List OutputItem)
deriving DecidableEq

/-- Interval of the polling loop: `await asyncio.sleep(0.6)`. -/
def pollIntervalSeconds : ℚ := 6 / 10

/-- One observable effect of the handler: a remote-client call (with the
arguments the source passes) or a sleep. -/
inductive Effect where
  | appendMessage (thread_id role content : String)
  | createRun (thread_id assistant_id : String)
  | retrieveRun (thread_id run_id : String)
  | listSteps (thread_id run_id order : String) (limit : Nat)
  | retrieveMessage (thread_id message_id : String)
  | listMessages (thread_id order : String) (limit : Nat)
  | responsesCreate (model : String) (input : List (String × String))
  | sleep (seconds : ℚ)
deriving DecidableEq

/-- Effects that mutate remote state (message append, run start, stateless
completion).  Run/step/message reads and sleeps are non-mutating. -/
def Effect.isMutating : Effect → Bool
  | .appendMessage _ _ _ => true
  | .createRun _ _ => true
  | .responsesCreate _ _ => true
  | _ => false

/-- The remote service's behaviour, one field per SDK call the source
makes.  `retrieveRun` additionally takes the poll-iteration index, so a
run's status may evolve over time.  An `error e` models the call raising
an exception rendered as `e`. -/
structure Env where
  appendMessage : String → String → String → Except String Message
  createRun : String → String → Except String RunObj
  retrieveRun : String → String → Nat → Except String RunObj
  listSteps : String → String → String → Nat → Except String (List RunStep)
  retrieveMessage : String → String → Except String Message
  listMessages : String → String → Nat → Except String (List Message)
  responsesCreate : String → List (String × String) → Except String RespObj

/-- Outcome of a (fuel-bounded) computation: `diverge` when the polling
loop's fuel runs out, `err e` for a propagating exception, `ok a` for a
normal return. -/
inductive RRes (α : Type) where
  | diverge
  | err (e : String)
  | ok (a : α)
deriving DecidableEq

/-- A computation result together with the trace of effects it issued. -/
structure TR (α : Type) where
  res : RRes α
  ops : List Effect

/-- Sequencing: on divergence or exception the continuation never runs;
traces concatenate. -/
def TR.bind {α β : Type} (t : TR α) (f : α → TR β) : TR β :=
  match t.res with
  | .diverge => ⟨.diverge, t.ops⟩
  | .err e => ⟨.err e, t.ops⟩
  | .ok a =>
    let u := f a
    ⟨u.res, t.ops ++ u.ops⟩

/-- The `try`/`except Exception` at the `/chat` boundary: an exception is
converted to a value, divergence and normal returns pass through. -/
def TR.catch {α : Type} (t : TR α) (h : String → α) : TR α :=
  match t.res with
  | .err e => ⟨.ok (h e), t.ops⟩
  | r => ⟨r, t.ops⟩

/-- Issue one remote call: record the effect, turn a raised exception into
`err`. -/
def callRemote {α : Type} (op : Effect) (r : Except String α) : TR α :=
  match r with
  | .error e => ⟨.err e, [op]⟩
  | .ok a => ⟨.ok a, [op]⟩

/-- Python's `s.startswith(p)`, as used on the orchestrator's reply. -/
def pyStartsWith (s p : String) : Bool :=
  p.data.isPrefixOf s.data

/-- Python's `s.strip()` with no argument: remove leading and trailing
whitespace. -/
def pyStrip (s : String) : String :=
  ⟨((s.data.dropWhile Char.isWhitespace).reverse.dropWhile
      Char.isWhitespace).reverse⟩

/-- Python's rendering of an optional string inside an f-string:
`None` prints as `"None"`. -/
def pyShow : Option String → String
  | some s => s
  | none => "None"

/-- Extraction from one content part: `txt = getattr(part, "text", None)`
then `if txt and getattr(txt, "value", None): answer = txt.value`.
A missing text object, a missing value, or an empty (falsy) value yields
nothing. -/
def partText (p : ContentPart) : Option String :=
  match p.text with
  | some t =>
    match t.value with
    | some v => if v = "" then none else some v
    | none => none
  | none => none

/-- First non-empty text value among the content parts, in part order
(the inner `for part in m.content` loop with its `break`). -/
def firstPartText : List ContentPart → Option String
  | [] => none
  | p :: rest =>
    match partText p with
    | some v => some v
    | none => firstPartText rest

/-- Extraction from one message: the guard
`getattr(m, "role", "") == "assistant" and getattr(m, "content", None)`
followed by the part scan.  A falsy `content` (absent or the empty list)
yields nothing. -/
def messageText (m : Message) : Option String :=
  if m.role = "assistant" then
    match m.content with
    | some parts => if parts.isEmpty then none else firstPartText parts
    | none => none
  else none

/-- Message identifier contributed by one step: the step must have
`type == "message_creation"`, the attribute chain
`s.step_details.message_creation.message_id` must not raise (the source
swallows the exception and skips the step), and the id must be truthy. -/
def stepMessageId (s : RunStep) : Option String :=
  if s.type = some "message_creation" then
    match s.step_details with
    | some sd =>
      match sd.message_creation with
      | some mc =>
        match mc.message_id with
        | some mid => if mid = "" then none else some mid
        | none => none
      | none => none
    | none => none
  else none

/-- The `created_message_ids` list: step order is preserved, non-matching
steps are skipped. -/
def createdMessageIds (steps : List RunStep) : List String :=
  steps.filterMap stepMessageId

/-- Terminal run statuses: the loop's
`status in ("completed", "failed", "cancelled", "expired", "requires_action")`. -/
def isTerminal (s : String) : Bool :=
  s = "completed" || s = "failed" || s = "cancelled" || s = "expired" ||
    s = "requires_action"

/-- The `while True` polling loop.  `i` is the iteration index fed to the
remote (so the observed status can change over time); the third argument
is the run id of the most recently fetched run object, since each
`runs.retrieve` call passes `run_id=run.id` of the current `run`.
Each non-terminal iteration sleeps `pollIntervalSeconds` before the next
fetch.  `fuel = 0` models the loop never reaching a terminal status. -/
def pollLoop (env : Env) (thread_id : String) :
    Nat → Nat → String → TR RunObj
  | 0, _, _ => ⟨.diverge, []⟩
  | fuel + 1, i, run_id =>
    match env.retrieveRun thread_id run_id i with
    | .error e => ⟨.err e, [.retrieveRun thread_id run_id]⟩
    | .ok run =>
      if isTerminal run.status then ⟨.ok run, [.retrieveRun thread_id run_id]⟩
      else
        let rest := pollLoop env thread_id fuel (i + 1) run.id
        ⟨rest.res,
          .retrieveRun thread_id run_id :: .sleep pollIntervalSeconds :: rest.ops⟩

/-- The reply for a non-`completed` terminal run (lines 81–90): with a
truthy `last_error`, `f"[assistant failed] code={code} message={msg}"`,
otherwise `f"[assistant failed] status={run.status}"`. -/
def failure_reply (run : RunObj) : String :=
  match run.last_error with
  | some le =>
    "[assistant failed]" ++ " code=" ++ pyShow le.code ++ " message=" ++
      pyShow le.message
  | none => "[assistant failed]" ++ " status=" ++ run.status

/-- The `for mid in created_message_ids` loop: retrieve each message (a
raised exception propagates — this retrieval is not inside a `try`), take
the first message yielding text, stop there. -/
def retrieveLoop (env : Env) (thread_id : String) :
    List String → TR (Option String)
  | [] => ⟨.ok none, []⟩
  | mid :: rest =>
    TR.bind (callRemote (.retrieveMessage thread_id mid)
        (env.retrieveMessage thread_id mid)) fun m =>
      match messageText m with
      | some v => ⟨.ok (some v), []⟩
      | none => retrieveLoop env thread_id rest

/-- The sentinel returned when both extraction tiers yield nothing
(source line 144, spelling preserved). -/
def noAnswerSentinel : String := "Non ho trovato una risposa dall'assistente."

/-- The reply-extraction part of `run_assistant_and_get_reply`
(lines 92–146): list the run's steps (`order="asc"`, `limit=50`), retrieve
the created messages in step order, and if that yields nothing scan the
thread's recent messages (`order="desc"`, `limit=25`); substitute the
fixed sentinel when both tiers yield nothing. -/
def resolveReply (env : Env) (thread_id run_id : String) : TR String :=
  TR.bind (callRemote (.listSteps thread_id run_id "asc" 50)
      (env.listSteps thread_id run_id "asc" 50)) fun steps =>
  TR.bind (retrieveLoop env thread_id (createdMessageIds steps)) fun answer =>
  match answer with
  | some a => ⟨.ok a, []⟩
  | none =>
    TR.bind (callRemote (.listMessages thread_id "desc" 25)
        (env.listMessages thread_id "desc" 25)) fun msgs =>
    match msgs.findSome? messageText with
    | some a => ⟨.ok a, []⟩
    | none => ⟨.ok noAnswerSentinel, []⟩

/-- `run_assistant_and_get_reply` (lines 46–146): append the user message,
start a run, poll to a terminal status, then either report the failure as
a `[assistant failed]` string or extract the reply. -/
def run_assistant_and_get_reply (env : Env) (fuel : Nat)
    (assistant_id thread_id user_message : String) : TR String :=
  TR.bind (callRemote (.appendMessage thread_id "user" user_message)
      (env.appendMessage thread_id "user" user_message)) fun _ =>
  TR.bind (callRemote (.createRun thread_id assistant_id)
      (env.createRun thread_id assistant_id)) fun run0 =>
  TR.bind (pollLoop env thread_id fuel 0 run0.id) fun run =>
  if run.status = "completed" then resolveReply env thread_id run.id
  else ⟨.ok (failure_reply run), []⟩

/-- Manual extraction from the fallback response's `output` items
(lines 204–214): the first item with `type == "message"` whose content
parts yield a non-empty text value. -/
def fbFromItems (items : List OutputItem) : Option String :=
  items.findSome? fun it =>
    if it.type = some "message" then firstPartText (it.content.getD [])
    else none

/-- Sentinel when the manual fallback extraction yields nothing
(line 216). -/
def fbSentinel : String := "Non sono riuscito a generare una risposta (fallback)."

/-- Extraction of the fallback text (lines 199–216): `resp.output_text`
is used verbatim whenever the attribute access succeeds (even when the
string is empty); only when it raises does the manual `output`-item scan
run, with the fixed sentinel as last resort. -/
def fallbackText (resp : RespObj) : String :=
  match resp.output_text with
  | some t => t
  | none =>
    match (match resp.output with
           | some out => fbFromItems out
           | none => none) with
    | some t => t
    | none => fbSentinel

/-- The system prompt of the stateless fallback (line 194). -/
def sysPromptText : String := "Sei un assistente breve e chiaro."

/-- Result of the `/chat` handler: a 200 JSON body carrying a reply
string, or the `HTTPException(400)` raised for a missing thread id. -/
inductive ChatResult where
  | ok (response : String)
  | clientError (status : Nat) (detail : String)
deriving DecidableEq

/-- The `try` block of the `/chat` handler (lines 183–221): run the
orchestrator; when its reply starts with `"[assistant failed]"`, issue
the stateless `responses.create` fallback and return its extracted text,
otherwise return the reply. -/
def chatTry (env : Env) (fuel : Nat)
    (assistant_id thread_id user_msg : String) : TR ChatResult :=
  TR.bind (run_assistant_and_get_reply env fuel assistant_id thread_id user_msg)
    fun answer =>
  if pyStartsWith answer "[assistant failed]" then
    TR.bind (callRemote
        (.responsesCreate "gpt-4o-mini"
          [("system", sysPromptText), ("user", user_msg)])
        (env.responsesCreate "gpt-4o-mini"
          [("system", sysPromptText), ("user", user_msg)])) fun resp =>
    ⟨.ok (.ok (fallbackText resp)), []⟩
  else ⟨.ok (.ok answer), []⟩

/-- The prompt returned for an empty (post-trim) message (line 181). -/
def emptyMsgPrompt : String := "Dimmi qualcosa da inviare al bot."

/-- The effective `/chat` handler (lines 167–225): trim both fields,
raise `HTTPException(400)` for an empty thread id (outside the `try`),
short-circuit for an empty message, and otherwise run the orchestrator
under the boundary `try`/`except` that converts any exception into an
`"Errore interno: ..."` reply. -/
def chat (env : Env) (fuel : Nat)
    (assistant_id thread_id message : String) : TR ChatResult :=
  let tid := pyStrip thread_id
  let user_msg := pyStrip message
  if tid = "" then ⟨.ok (.clientError 400 "Missing thread_id"), []⟩
  else if user_msg = "" then ⟨.ok (.ok emptyMsgPrompt), []⟩
  else
    TR.catch (chatTry env fuel assistant_id tid user_msg)
      fun e => .ok ("Errore interno: " ++ e)

/-- Extraction-tier remote reads: the step list, message retrieval and
message list calls issued by the reply resolver. -/
def Effect.isExtractionRead : Effect → Bool
  | .listSteps _ _ _ _ => true
  | .retrieveMessage _ _ => true
  | .listMessages _ _ _ => true
  | _ => false

/-- Effect trace of a poll run that observes `k` non-terminal statuses
before the terminal one: `k + 1` run fetches interleaved with `k` sleeps
of the fixed interval. -/
def pollTrace (thread_id run_id : String) : Nat → List Effect
  | 0 => [.retrieveRun thread_id run_id]
  | k + 1 =>
    .retrieveRun thread_id run_id :: .sleep pollIntervalSeconds ::
      pollTrace thread_id run_id k

/-- The polling loop terminates for some fuel bound. -/
def pollTerminates (env : Env) (thread_id run_id : String) : Prop :=
  ∃ fuel, (pollLoop env thread_id fuel 0 run_id).res ≠ RRes.diverge

/-- A message with a single non-empty (or empty) text part. -/
def mkMsg (role txt : String) : Message :=
  ⟨role, some [⟨some ⟨some txt⟩⟩]⟩

/-- Concrete remote: one completed run with one `message_creation` step
producing message `m1` whose text is `"hello"`. -/
def envHello : Env where
  appendMessage := fun _ _ _ => .ok (mkMsg "user" "hi")
  createRun := fun _ _ => .ok ⟨"run1", "queued", none⟩
  retrieveRun := fun _ _ _ => .ok ⟨"run1", "completed", none⟩
  listSteps := fun _ _ _ _ =>
    .ok [⟨some "message_creation", some ⟨some ⟨some "m1"⟩⟩⟩]
  retrieveMessage := fun _ _ => .ok (mkMsg "assistant" "hello")
  listMessages := fun _ _ _ => .ok []
  responsesCreate := fun _ _ => .ok ⟨none, none⟩

/-- Concrete remote: the run terminates `failed` with
`last_error = {code: "x", message: "y"}` and the stateless fallback
returns aggregated text `"backup-answer"`. -/
def envFailedBackup : Env where
  appendMessage := fun _ _ _ => .ok (mkMsg "user" "hi")
  createRun := fun _ _ => .ok ⟨"run1", "queued", none⟩
  retrieveRun := fun _ _ _ => .ok ⟨"run1", "failed", some ⟨some "x", some "y"⟩⟩
  listSteps := fun _ _ _ _ => .ok []
  retrieveMessage := fun _ _ => .ok (mkMsg "assistant" "hello")
  listMessages := fun _ _ _ => .ok []
  responsesCreate := fun _ _ => .ok ⟨some "backup-answer", none⟩

/-- Concrete remote: a failed run whose stateless fallback response
carries a present but empty `output_text`. -/
def envEmptyFallback : Env :=
  { envFailedBackup with responsesCreate := fun _ _ => .ok ⟨some "", none⟩ }

/-- Concrete remote: the completed run's steps list is empty and the
thread's most recent message is an assistant message reading
`"fallback-text"`. -/
def envThreadScan : Env :=
  { envHello with
    listSteps := fun _ _ _ _ => .ok []
    listMessages := fun _ _ _ => .ok [mkMsg "assistant" "fallback-text"] }

/-- Concrete remote: a completed run where every candidate message in
both tiers carries only an empty text value. -/
def envNoAnswer : Env :=
  { envHello with
    listSteps := fun _ _ _ _ => .ok []
    listMessages := fun _ _ _ => .ok [mkMsg "assistant" ""] }

/-- Concrete remote whose run status is forever `in_progress`. -/
def envNeverTerminal : Env :=
  { envHello with retrieveRun := fun _ _ _ => .ok ⟨"run1", "in_progress", none⟩ }

/-- Concrete remote whose run reports `queued`, then `in_progress`, then
`completed`: the terminal status appears at the third fetch. -/
def envLateCompleted : Env :=
  { envHello with
    retrieveRun := fun _ _ i =>
      .ok ⟨"run1",
        if i = 0 then "queued" else if i = 1 then "in_progress" else "completed",
        none⟩ }

/-- Concrete remote: the completed run genuinely produced the assistant
text `"[assistant failed] just kidding"`, and the stateless fallback
returns `"real-answer"`. -/
def envPrefixCollision : Env :=
  { envHello with
    retrieveMessage := fun _ _ =>
      .ok (mkMsg "assistant" "[assistant failed] just kidding")
    responsesCreate := fun _ _ => .ok ⟨some "real-answer", none⟩ }

end Bridge

namespace Bridge

theorem TR.bind_ok_inv {α β : Type} {t : TR α} {f : α → TR β} {b : β}
    (h : (TR.bind t f).res = .ok b) : ∃ a, t.res = .ok a ∧ (f a).res = .ok b := by
  cases ht : t.res with
  | diverge => simp [TR.bind, ht] at h
  | err e => simp [TR.bind, ht] at h
  | ok a => exact ⟨a, rfl, by simpa [TR.bind, ht] using h⟩

theorem TR.res_bind_of_ok {α β : Type} {t : TR α} {f : α → TR β} {a : α}
    (h : t.res = .ok a) :
    TR.bind t f = ⟨(f a).res, t.ops ++ (f a).ops⟩ := by
  simp [TR.bind, h]

theorem callRemote_ok_inv {α : Type} {op : Effect} {r : Except String α} {a : α}
    (h : (callRemote op r).res = .ok a) : r = .ok a := by
  cases r with
  | error e => simp [callRemote] at h
  | ok x => simpa [callRemote] using h

theorem callRemote_ok {α : Type} {op : Effect} {r : Except String α} {a : α}
    (h : r = .ok a) : callRemote op r = ⟨.ok a, [op]⟩ := by
  simp [callRemote, h]

theorem partText_ne_empty {p : ContentPart} {v : String}
    (h : partText p = some v) : v ≠ "" := by
  unfold partText at h
  cases hp : p.text with
  | none => simp [hp] at h
  | some t =>
    cases hv : t.value with
    | none => simp [hp, hv] at h
    | some w =>
      simp [hp, hv] at h
      by_cases hw : w = "" <;> simp [hw] at h
      exact h ▸ hw

theorem firstPartText_ne_empty {v : String} :
    ∀ {ps : List ContentPart}, firstPartText ps = some v → v ≠ "" := by
  intro ps
  induction ps with
  | nil => intro h; simp [firstPartText] at h
  | cons p rest ih =>
    intro h
    unfold firstPartText at h
    cases hp : partText p with
    | some w => rw [hp] at h; exact (Option.some_inj.mp h) ▸ partText_ne_empty hp
    | none => rw [hp] at h; exact ih h

theorem messageText_ne_empty {m : Message} {v : String}
    (h : messageText m = some v) : v ≠ "" := by
  unfold messageText at h
  split at h
  · split at h
    · split at h
      · exact absurd h (by simp)
      · exact firstPartText_ne_empty h
    · exact absurd h (by simp)
  · exact absurd h (by simp)

theorem findSome?_messageText_ne_empty {l : List Message} {v : String}
    (h : l.findSome? messageText = some v) : v ≠ "" := by
  induction l with
  | nil => simp at h
  | cons m rest ih =>
    rw [List.findSome?_cons] at h
    cases hm : messageText m with
    | some w => rw [hm] at h; exact (Option.some_inj.mp h) ▸ messageText_ne_empty hm
    | none => rw [hm] at h; exact ih h

theorem retrieveLoop_ok_some_ne {env : Env} {tid : String} {v : String} :
    ∀ {mids : List String},
      (retrieveLoop env tid mids).res = .ok (some v) → v ≠ "" := by
  intro mids
  induction mids with
  | nil => intro h; simp [retrieveLoop] at h
  | cons mid rest ih =>
    intro h
    unfold retrieveLoop at h
    rcases TR.bind_ok_inv h with ⟨m, hm, hf⟩
    cases ht : messageText m with
    | some w =>
      rw [ht] at hf
      simp at hf
      exact hf ▸ messageText_ne_empty ht
    | none => rw [ht] at hf; exact ih hf

theorem retrieveLoop_res {env : Env} {tid : String} {fetch : String → Message} :
    ∀ {mids : List String},
      (∀ mid ∈ mids, env.retrieveMessage tid mid = .ok (fetch mid)) →
      (retrieveLoop env tid mids).res =
        .ok (mids.findSome? fun mid => messageText (fetch mid)) := by
  intro mids
  induction mids with
  | nil => intro _; simp [retrieveLoop]
  | cons mid rest ih =>
    intro h
    have hmid : env.retrieveMessage tid mid = .ok (fetch mid) :=
      h mid (List.mem_cons_self mid rest)
    unfold retrieveLoop
    rw [callRemote_ok hmid, TR.res_bind_of_ok rfl]
    rw [List.findSome?_cons]
    cases ht : messageText (fetch mid) with
    | some w => simp [ht]
    | none =>
      simp only [ht]
      exact ih (fun m hm => h m (List.mem_cons_of_mem mid hm))

theorem retrieveLoop_ops_read {env : Env} {tid : String} :
    ∀ {mids : List String} {op : Effect}, op ∈ (retrieveLoop env tid mids).ops →
      ∃ m, op = .retrieveMessage tid m := by
  intro mids
  induction mids with
  | nil => intro op h; simp [retrieveLoop] at h
  | cons mid rest ih =>
    intro op h
    unfold retrieveLoop at h
    cases hr : env.retrieveMessage tid mid with
    | error e =>
      simp [TR.bind, callRemote, hr] at h
      exact ⟨mid, h⟩
    | ok m =>
      rw [callRemote_ok hr, TR.res_bind_of_ok rfl] at h
      simp at h
      rcases h with h | h
      · exact ⟨mid, h⟩
      · cases ht : messageText m with
        | some w => rw [ht] at h; simp at h
        | none => rw [ht] at h; exact ih h

theorem retrieveLoop_congr {env env' : Env} {tid : String}
    (h : env.retrieveMessage = env'.retrieveMessage) :
    ∀ (mids : List String), retrieveLoop env tid mids = retrieveLoop env' tid mids := by
  intro mids
  induction mids with
  | nil => rfl
  | cons mid rest ih =>
    unfold retrieveLoop
    rw [h, ih]

theorem str_append_ne_empty {p s : String} (hp : p.data ≠ []) : p ++ s ≠ "" := by
  intro h
  have hd := congrArg String.data h
  rw [String.data_append] at hd
  exact hp (List.append_eq_nil.mp hd).1

theorem pyStartsWith_append (p s : String) : pyStartsWith (p ++ s) p = true := by
  unfold pyStartsWith
  rw [String.data_append, List.isPrefixOf_iff_prefix]
  exact List.prefix_append _ _

theorem failure_reply_starts (run : RunObj) :
    pyStartsWith (failure_reply run) "[assistant failed]" = true := by
  unfold failure_reply
  split
  · rw [String.append_assoc, String.append_assoc, String.append_assoc]
    exact pyStartsWith_append _ _
  · rw [String.append_assoc]
    exact pyStartsWith_append _ _

theorem failure_reply_ne_empty (run : RunObj) : failure_reply run ≠ "" := by
  unfold failure_reply
  split
  · rw [String.append_assoc, String.append_assoc, String.append_assoc]
    exact str_append_ne_empty (by decide)
  · rw [String.append_assoc]
    exact str_append_ne_empty (by decide)

theorem fbFromItems_ne_empty {v : String} :
    ∀ {items : List OutputItem}, fbFromItems items = some v → v ≠ "" := by
  intro items
  induction items with
  | nil => intro h; simp [fbFromItems] at h
  | cons it rest ih =>
    intro h
    unfold fbFromItems at h ih
    rw [List.findSome?_cons] at h
    cases hit : (if it.type = some "message" then firstPartText (it.content.getD []) else none) with
    | some w =>
      rw [hit] at h
      have hw : w ≠ "" := by
        by_cases ht : it.type = some "message"
        · rw [if_pos ht] at hit; exact firstPartText_ne_empty hit
        · rw [if_neg ht] at hit; exact absurd hit (by simp)
      exact (Option.some_inj.mp h) ▸ hw
    | none => rw [hit] at h; exact ih h

theorem fallbackText_of_output_text {resp : RespObj} {t : String}
    (h : resp.output_text = some t) : fallbackText resp = t := by
  unfold fallbackText
  rw [h]

theorem fallbackText_manual {resp : RespObj} {out : List OutputItem} {v : String}
    (h : resp.output_text = none) (ho : resp.output = some out)
    (hv : fbFromItems out = some v) : fallbackText resp = v := by
  unfold fallbackText
  simp only [h, ho, hv]

theorem fallbackText_sentinel {resp : RespObj}
    (h : resp.output_text = none)
    (ho : (match resp.output with
           | some out => fbFromItems out
           | none => none) = (none : Option String)) :
    fallbackText resp = fbSentinel := by
  unfold fallbackText
  simp only [h, ho]

theorem fallbackText_empty_inv {resp : RespObj}
    (h : fallbackText resp = "") : resp.output_text = some "" := by
  unfold fallbackText at h
  cases ht : resp.output_text with
  | some t => simp only [ht] at h; rw [h]
  | none =>
    simp only [ht] at h
    exfalso
    cases ho : resp.output with
    | none => simp only [ho] at h; exact absurd h (by decide)
    | some out =>
      simp only [ho] at h
      cases hf : fbFromItems out with
      | some w => simp only [hf] at h; exact fbFromItems_ne_empty hf h
      | none => simp only [hf] at h; exact absurd h (by decide)

theorem resolveReply_ok_ne_empty {env : Env} {tid rid : String} {a : String}
    (h : (resolveReply env tid rid).res = .ok a) : a ≠ "" := by
  unfold resolveReply at h
  rcases TR.bind_ok_inv h with ⟨steps, _, h2⟩
  rcases TR.bind_ok_inv h2 with ⟨answer, hrl, h3⟩
  cases answer with
  | some v =>
    simp at h3
    exact h3 ▸ retrieveLoop_ok_some_ne hrl
  | none =>
    rcases TR.bind_ok_inv h3 with ⟨msgs, _, h4⟩
    cases hf : msgs.findSome? messageText with
    | some w =>
      rw [hf] at h4
      simp at h4
      exact h4 ▸ findSome?_messageText_ne_empty hf
    | none =>
      rw [hf] at h4
      simp at h4
      rw [← h4]
      decide

theorem resolveReply_spec {env : Env} {tid rid : String} {steps : List RunStep}
    {fetch : String → Message} {msgs : List Message}
    (hsteps : env.listSteps tid rid "asc" 50 = .ok steps)
    (hret : ∀ mid, env.retrieveMessage tid mid = .ok (fetch mid))
    (hmsgs : env.listMessages tid "desc" 25 = .ok msgs) :
    (resolveReply env tid rid).res =
      .ok (match (createdMessageIds steps).findSome?
              (fun mid => messageText (fetch mid)) with
           | some v => v
           | none =>
             match msgs.findSome? messageText with
             | some v => v
             | none => noAnswerSentinel) ∧
    ((createdMessageIds steps).findSome? (fun mid => messageText (fetch mid)) = none →
      Effect.listMessages tid "desc" 25 ∈ (resolveReply env tid rid).ops) := by
  have hrl : (retrieveLoop env tid (createdMessageIds steps)).res =
      .ok ((createdMessageIds steps).findSome? fun mid => messageText (fetch mid)) :=
    retrieveLoop_res (fun mid _ => hret mid)
  unfold resolveReply
  rw [callRemote_ok hsteps, TR.res_bind_of_ok rfl, TR.res_bind_of_ok hrl]
  cases hp : (createdMessageIds steps).findSome? (fun mid => messageText (fetch mid)) with
  | some v =>
    constructor
    · simp
    · intro hc; exact absurd hc (by simp)
  | none =>
    rw [callRemote_ok hmsgs, TR.res_bind_of_ok rfl]
    cases hf : msgs.findSome? messageText with
    | some w => constructor
                · simp
                · intro _; simp
    | none => constructor
              · simp
              · intro _; simp

theorem TR.bind_ops_sub {α β : Type} {t : TR α} {f : α → TR β} {op : Effect}
    (h : op ∈ (TR.bind t f).ops) :
    op ∈ t.ops ∨ ∃ a, t.res = .ok a ∧ op ∈ (f a).ops := by
  cases ht : t.res with
  | diverge => simp [TR.bind, ht] at h; exact Or.inl h
  | err e => simp [TR.bind, ht] at h; exact Or.inl h
  | ok a =>
    simp [TR.bind, ht] at h
    rcases h with h | h
    · exact Or.inl h
    · exact Or.inr ⟨a, rfl, h⟩

theorem callRemote_ops {α : Type} {op' op : Effect} {r : Except String α}
    (h : op ∈ (callRemote op' r).ops) : op = op' := by
  cases r <;> simpa [callRemote] using h

theorem resolveReply_ops_read {env : Env} {tid rid : String} {op : Effect}
    (h : op ∈ (resolveReply env tid rid).ops) : op.isExtractionRead = true := by
  unfold resolveReply at h
  rcases TR.bind_ops_sub h with h | ⟨steps, hs, h⟩
  · rw [callRemote_ops h]; rfl
  · rcases TR.bind_ops_sub h with h | ⟨answer, ha, h⟩
    · rcases retrieveLoop_ops_read h with ⟨m, rfl⟩; rfl
    · cases answer with
      | some a => simp at h
      | none =>
        rcases TR.bind_ops_sub h with h | ⟨msgs, hm, h⟩
        · rw [callRemote_ops h]; rfl
        · cases hf : msgs.findSome? messageText with
          | some w => rw [hf] at h; simp at h
          | none => rw [hf] at h; simp at h

theorem resolveReply_congr {env env' : Env} {tid rid : String}
    (h1 : env.listSteps = env'.listSteps)
    (h2 : env.retrieveMessage = env'.retrieveMessage)
    (h3 : env.listMessages = env'.listMessages) :
    resolveReply env tid rid = resolveReply env' tid rid := by
  unfold resolveReply
  rw [h1, h3]
  simp only [retrieveLoop_congr h2]

theorem resolveReply_ops_head {env : Env} {tid rid : String} :
    (resolveReply env tid rid).ops.head? =
      some (.listSteps tid rid "asc" 50) := by
  unfold resolveReply
  cases hs : env.listSteps tid rid "asc" 50 with
  | error e => simp [TR.bind, callRemote, hs]
  | ok steps => simp [TR.bind, callRemote, hs]

theorem pollLoop_terminal_first {env : Env} {tid rid : String} {run : RunObj}
    (fuel : Nat)
    (h : env.retrieveRun tid rid 0 = .ok run)
    (ht : isTerminal run.status = true) :
    pollLoop env tid (fuel + 1) 0 rid = ⟨.ok run, [.retrieveRun tid rid]⟩ := by
  unfold pollLoop
  rw [h]
  simp [ht]

theorem pollLoop_ok_terminal {env : Env} {tid : String} {run : RunObj} :
    ∀ {fuel i : Nat} {rid : String},
      (pollLoop env tid fuel i rid).res = .ok run → isTerminal run.status = true := by
  intro fuel
  induction fuel with
  | zero => intro i rid h; simp [pollLoop] at h
  | succ n ih =>
    intro i rid h
    unfold pollLoop at h
    cases hr : env.retrieveRun tid rid i with
    | error e => rw [hr] at h; simp at h
    | ok r =>
      rw [hr] at h
      by_cases ht : isTerminal r.status
      · simp [ht] at h; exact h ▸ ht
      · simp [ht] at h; exact ih h

theorem run_assistant_spec {env : Env} {fuel : Nat} {aid tid msg : String}
    {m0 : Message} {run0 : RunObj}
    (h3 : env.appendMessage tid "user" msg = .ok m0)
    (h4 : env.createRun tid aid = .ok run0) :
    run_assistant_and_get_reply env fuel aid tid msg =
      ⟨(TR.bind (pollLoop env tid fuel 0 run0.id) fun run =>
          if run.status = "completed" then resolveReply env tid run.id
          else ⟨.ok (failure_reply run), []⟩).res,
        .appendMessage tid "user" msg :: .createRun tid aid ::
          (TR.bind (pollLoop env tid fuel 0 run0.id) fun run =>
            if run.status = "completed" then resolveReply env tid run.id
            else ⟨.ok (failure_reply run), []⟩).ops⟩ := by
  unfold run_assistant_and_get_reply
  rw [callRemote_ok h3, TR.res_bind_of_ok rfl, callRemote_ok h4,
    TR.res_bind_of_ok rfl]
  simp

theorem run_assistant_ok_ne_empty {env : Env} {fuel : Nat} {aid tid msg a : String}
    (h : (run_assistant_and_get_reply env fuel aid tid msg).res = .ok a) :
    a ≠ "" := by
  unfold run_assistant_and_get_reply at h
  rcases TR.bind_ok_inv h with ⟨m0, _, h1⟩
  rcases TR.bind_ok_inv h1 with ⟨run0, _, h2⟩
  rcases TR.bind_ok_inv h2 with ⟨run, _, h3⟩
  by_cases hc : run.status = "completed"
  · rw [if_pos hc] at h3; exact resolveReply_ok_ne_empty h3
  · rw [if_neg hc] at h3
    simp at h3
    exact h3 ▸ failure_reply_ne_empty run

theorem chatTry_ok_shape {env : Env} {fuel : Nat} {aid tid msg : String}
    {c : ChatResult} (h : (chatTry env fuel aid tid msg).res = .ok c) :
    ∃ s, c = .ok s ∧
      (s = "" → ∃ r, env.responsesCreate "gpt-4o-mini"
          [("system", sysPromptText), ("user", msg)] = .ok r ∧
        r.output_text = some "") := by
  unfold chatTry at h
  rcases TR.bind_ok_inv h with ⟨answer, ha, h1⟩
  by_cases hp : pyStartsWith answer "[assistant failed]" = true
  · rw [if_pos hp] at h1
    rcases TR.bind_ok_inv h1 with ⟨resp, hr, h2⟩
    simp at h2
    refine ⟨fallbackText resp, by rw [← h2], fun hs => ⟨resp, callRemote_ok_inv hr, ?_⟩⟩
    exact fallbackText_empty_inv hs
  · rw [if_neg hp] at h1
    simp at h1
    exact ⟨answer, by rw [← h1], fun hs => absurd hs (run_assistant_ok_ne_empty ha)⟩

theorem chat_main_branch {env : Env} {fuel : Nat} {aid tid msg : String}
    (h1 : pyStrip tid ≠ "") (h2 : pyStrip msg ≠ "") :
    chat env fuel aid tid msg =
      TR.catch (chatTry env fuel aid (pyStrip tid) (pyStrip msg))
        (fun e => .ok ("Errore interno: " ++ e)) := by
  unfold chat
  rw [if_neg h1, if_neg h2]

theorem TR.catch_res_ok {α : Type} {t : TR α} {h : String → α} {a : α}
    (ht : t.res = .ok a) : (TR.catch t h).res = .ok a := by
  simp [TR.catch, ht]

theorem TR.res_of_bind_ok {α β : Type} {t : TR α} {f : α → TR β} {a : α}
    (h : t.res = .ok a) : (TR.bind t f).res = (f a).res := by
  rw [TR.res_bind_of_ok h]

theorem run_assistant_res_first_poll {env : Env} {fuel : Nat} {aid tid msg : String}
    {m0 : Message} {run0 run1 : RunObj}
    (h3 : env.appendMessage tid "user" msg = .ok m0)
    (h4 : env.createRun tid aid = .ok run0)
    (h5 : env.retrieveRun tid run0.id 0 = .ok run1)
    (h6 : isTerminal run1.status = true) :
    (run_assistant_and_get_reply env (fuel + 1) aid tid msg).res =
      (if run1.status = "completed" then resolveReply env tid run1.id
       else ⟨.ok (failure_reply run1), []⟩).res := by
  rw [run_assistant_spec h3 h4]
  rw [TR.res_of_bind_ok (by rw [pollLoop_terminal_first fuel h5 h6])]

theorem chat_res_of_try {env : Env} {fuel : Nat} {aid tid msg : String}
    {c : ChatResult}
    (h1 : pyStrip tid ≠ "") (h2 : pyStrip msg ≠ "")
    (ht : (chatTry env fuel aid (pyStrip tid) (pyStrip msg)).res = .ok c) :
    (chat env fuel aid tid msg).res = .ok c := by
  rw [chat_main_branch h1 h2]
  exact TR.catch_res_ok ht

/-- C2: for a completed run, the resolver lists the run's steps in
ascending order (`order="asc"`, `limit=50`, the first issued effect),
keeps the `message_creation` steps' produced message ids in step order,
retrieves those messages in that order, and the first assistant message
with a non-empty text part value (first such part in part order) becomes
the reply; the `/chat` turn returns exactly that text. -/
theorem C2_primary_extraction
    {env : Env} {fuel : Nat} {aid tid msg : String} {m0 : Message}
    {run0 run1 : RunObj} {steps : List RunStep} {fetch : String → Message}
    {msgs : List Message} {v : String}
    (h1 : pyStrip tid ≠ "") (h2 : pyStrip msg ≠ "")
    (h3 : env.appendMessage (pyStrip tid) "user" (pyStrip msg) = .ok m0)
    (h4 : env.createRun (pyStrip tid) aid = .ok run0)
    (h5 : env.retrieveRun (pyStrip tid) run0.id 0 = .ok run1)
    (h6 : run1.status = "completed")
    (h7 : env.listSteps (pyStrip tid) run1.id "asc" 50 = .ok steps)
    (h8 : ∀ mid, env.retrieveMessage (pyStrip tid) mid = .ok (fetch mid))
    (h9 : env.listMessages (pyStrip tid) "desc" 25 = .ok msgs)
    (h10 : (createdMessageIds steps).findSome?
        (fun mid => messageText (fetch mid)) = some v)
    (h11 : pyStartsWith v "[assistant failed]" = false) :
    (resolveReply env (pyStrip tid) run1.id).res = .ok v ∧
    (resolveReply env (pyStrip tid) run1.id).ops.head? =
      some (.listSteps (pyStrip tid) run1.id "asc" 50) ∧
    (chat env (fuel + 1) aid tid msg).res = .ok (.ok v) := by
  have hres : (resolveReply env (pyStrip tid) run1.id).res = .ok v := by
    have := (resolveReply_spec h7 h8 h9).1
    rw [h10] at this
    exact this
  refine ⟨hres, resolveReply_ops_head, ?_⟩
  apply chat_res_of_try h1 h2
  unfold chatTry
  rw [TR.res_of_bind_ok (t := run_assistant_and_get_reply env (fuel+1) aid (pyStrip tid) (pyStrip msg)) (a := v)]
  · rw [if_neg (by rw [h11]; exact Bool.false_ne_true)]
  · rw [run_assistant_res_first_poll h3 h4 h5 (by rw [h6]; decide), if_pos h6]
    exact hres

/-- C2 witness: in the concrete environment with one `message_creation`
step producing assistant message text `"hello"`, the turn returns
exactly `"hello"`. -/
theorem C2_witness :
    (chat envHello 1 "a1" "t1" "hi").res = RRes.ok (ChatResult.ok "hello") :=
  (@C2_primary_extraction envHello 0 "a1" "t1" "hi" (mkMsg "user" "hi")
    ⟨"run1", "queued", none⟩ ⟨"run1", "completed", none⟩
    [⟨some "message_creation", some ⟨some ⟨some "m1"⟩⟩⟩]
    (fun _ => mkMsg "assistant" "hello") [] "hello"
    (by decide) (by decide) rfl rfl rfl rfl rfl (fun _ => rfl) rfl rfl
    (by decide)).2.2

/-- C3: when the primary step-indexed tier yields no text (all candidate
messages retrieved successfully but none matching, in particular an empty
steps list), the resolver lists the thread's recent messages with
`order="desc"`, `limit=25`, applies the same role/first-non-empty-part
rule scanning that order, and returns the first match. -/
theorem C3_thread_scan
    {env : Env} {tid rid : String} {steps : List RunStep}
    {fetch : String → Message} {msgs : List Message} {v : String}
    (h7 : env.listSteps tid rid "asc" 50 = .ok steps)
    (h8 : ∀ mid, env.retrieveMessage tid mid = .ok (fetch mid))
    (h9 : env.listMessages tid "desc" 25 = .ok msgs)
    (hprim : (createdMessageIds steps).findSome?
        (fun mid => messageText (fetch mid)) = none)
    (hscan : msgs.findSome? messageText = some v) :
    (resolveReply env tid rid).res = .ok v ∧
    Effect.listMessages tid "desc" 25 ∈ (resolveReply env tid rid).ops := by
  have hspec := resolveReply_spec h7 h8 h9
  constructor
  · have := hspec.1
    rw [hprim, hscan] at this
    exact this
  · exact hspec.2 hprim

/-- C3 witness: completed run with an empty steps list, newest thread
message an assistant message reading `"fallback-text"`: the resolver
returns `"fallback-text"` through the thread-scan tier. -/
theorem C3_witness :
    (resolveReply envThreadScan "t1" "run1").res = RRes.ok "fallback-text" ∧
    Effect.listMessages "t1" "desc" 25 ∈ (resolveReply envThreadScan "t1" "run1").ops :=
  @C3_thread_scan envThreadScan "t1" "run1" []
    (fun _ => mkMsg "assistant" "hello") [mkMsg "assistant" "fallback-text"]
    "fallback-text" rfl (fun _ => rfl) rfl rfl rfl

/-- C4: when every candidate message in both tiers carries only empty or
missing text values, the resolver returns the fixed sentinel string and
raises no exception (its result is a normal `ok`). -/
theorem C4_no_answer_sentinel
    {env : Env} {tid rid : String} {steps : List RunStep}
    {fetch : String → Message} {msgs : List Message}
    (h7 : env.listSteps tid rid "asc" 50 = .ok steps)
    (h8 : ∀ mid, env.retrieveMessage tid mid = .ok (fetch mid))
    (h9 : env.listMessages tid "desc" 25 = .ok msgs)
    (hall1 : ∀ mid ∈ createdMessageIds steps, messageText (fetch mid) = none)
    (hall2 : ∀ m ∈ msgs, messageText m = none) :
    (resolveReply env tid rid).res = .ok noAnswerSentinel := by
  have hprim : (createdMessageIds steps).findSome?
      (fun mid => messageText (fetch mid)) = none :=
    List.findSome?_eq_none_iff.mpr hall1
  have hscan : msgs.findSome? messageText = none :=
    List.findSome?_eq_none_iff.mpr hall2
  have := (resolveReply_spec h7 h8 h9).1
  rw [hprim, hscan] at this
  exact this

/-- C4 witness: empty steps list and a thread whose only message carries
an empty text value: the resolver returns the sentinel. -/
theorem C4_witness :
    (resolveReply envNoAnswer "t1" "run1").res = RRes.ok noAnswerSentinel :=
  @C4_no_answer_sentinel envNoAnswer "t1" "run1" []
    (fun _ => mkMsg "assistant" "hello") [mkMsg "assistant" ""]
    rfl (fun _ => rfl) rfl (by decide) (by decide)

/-- C5: for a request whose message trims to empty (and a non-empty
trimmed thread id), the handler returns the fixed prompt-for-input string
and its effect trace is empty: no remote-client operation of any kind is
invoked. -/
theorem C5_empty_message_short_circuit
    (env : Env) (fuel : Nat) (aid tid msg : String)
    (h1 : pyStrip tid ≠ "") (h2 : pyStrip msg = "") :
    chat env fuel aid tid msg = ⟨.ok (.ok emptyMsgPrompt), []⟩ := by
  unfold chat
  rw [if_neg h1, if_pos h2]

/-- C5 witness: a whitespace-only message yields the prompt string with an
empty effect trace. -/
theorem C5_witness :
    chat envHello 1 "a1" "t1" "   " =
      ⟨RRes.ok (ChatResult.ok emptyMsgPrompt), []⟩ :=
  C5_empty_message_short_circuit envHello 1 "a1" "t1" "   " (by decide) (by decide)

/-- C6: an empty (post-trim) thread id makes the handler raise
`HTTPException(400, "Missing thread_id")` with an empty effect trace (no
remote operation precedes it), and this is the only way the handler
produces a structured client error: any client-error result implies the
thread id trimmed to empty. -/
theorem C6_empty_thread_client_error
    (env : Env) (fuel : Nat) (aid tid msg : String) :
    (pyStrip tid = "" →
      chat env fuel aid tid msg =
        ⟨.ok (.clientError 400 "Missing thread_id"), []⟩) ∧
    (∀ n d, (chat env fuel aid tid msg).res = .ok (.clientError n d) →
      pyStrip tid = "" ∧ n = 400 ∧ d = "Missing thread_id") := by
  constructor
  · intro h
    unfold chat
    rw [if_pos h]
  · intro n d h
    by_cases h1 : pyStrip tid = ""
    · unfold chat at h
      rw [if_pos h1] at h
      simp at h
      exact ⟨h1, h.1.symm, h.2.symm⟩
    · by_cases h2 : pyStrip msg = ""
      · unfold chat at h
        rw [if_neg h1, if_pos h2] at h
        simp at h
      · rw [chat_main_branch h1 h2] at h
        cases ht : (chatTry env fuel aid (pyStrip tid) (pyStrip msg)).res with
        | diverge => simp [TR.catch, ht] at h
        | err e => simp [TR.catch, ht] at h
        | ok c =>
          simp [TR.catch, ht] at h
          rcases chatTry_ok_shape ht with ⟨s, hc, _⟩
          rw [hc] at h
          simp at h

/-- C6 witness: a whitespace-only thread id produces the structured 400
client error with an empty effect trace. -/
theorem C6_witness :
    chat envHello 0 "a1" "  " "hi" =
      ⟨RRes.ok (ChatResult.clientError 400 "Missing thread_id"), []⟩ :=
  (C6_empty_thread_client_error envHello 0 "a1" "  " "hi").1 (by decide)

/-- C1 (amended): for non-empty trimmed inputs the handler never raises
and never returns a structured error — its result is either divergence of
the unbounded poll loop or a success-shaped reply string — and any empty
reply can arise only from the fallback path reading a present-but-empty
aggregated `output_text` field; internal errors are delivered as
`"Errore interno: ..."` success replies. -/
theorem C1_amended_total_reply
    (env : Env) (fuel : Nat) (aid tid msg : String)
    (h1 : pyStrip tid ≠ "") (h2 : pyStrip msg ≠ "") :
    ((chat env fuel aid tid msg).res = .diverge ∨
      ∃ s, (chat env fuel aid tid msg).res = .ok (.ok s)) ∧
    (∀ s, (chat env fuel aid tid msg).res = .ok (.ok s) → s = "" →
      ∃ r, env.responsesCreate "gpt-4o-mini"
          [("system", sysPromptText), ("user", pyStrip msg)] = .ok r ∧
        r.output_text = some "") := by
  rw [chat_main_branch h1 h2]
  cases ht : (chatTry env fuel aid (pyStrip tid) (pyStrip msg)).res with
  | diverge =>
    constructor
    · left; simp [TR.catch, ht]
    · intro s h; simp [TR.catch, ht] at h
  | err e =>
    constructor
    · right
      exact ⟨"Errore interno: " ++ e, by simp [TR.catch, ht]⟩
    · intro s h hs
      simp [TR.catch, ht] at h
      exact absurd (h ▸ hs) (str_append_ne_empty (by decide))
  | ok c =>
    rcases chatTry_ok_shape ht with ⟨s, hc, hprop⟩
    constructor
    · right
      exact ⟨s, by simp [TR.catch, ht, hc]⟩
    · intro s' h hs
      simp [TR.catch, ht, hc] at h
      exact hprop (by rw [h, hs])

/-- C1 counterexample: with non-empty trimmed inputs, a failed run whose
stateless fallback response carries a present but empty `output_text`
makes the turn return the empty string — the reply is not non-empty as
the claim states. -/
theorem C1_counterexample :
    pyStrip "t1" ≠ "" ∧ pyStrip "hi" ≠ "" ∧
    (chat envEmptyFallback 1 "a1" "t1" "hi").res = RRes.ok (ChatResult.ok "") :=
  ⟨by decide, by decide, by decide⟩

/-- C1 witness: the amended statement instantiated at the concrete
completed-run environment. -/
theorem C1_amended_witness :
    (((chat envHello 1 "a1" "t1" "hi").res = RRes.diverge ∨
      ∃ s, (chat envHello 1 "a1" "t1" "hi").res = RRes.ok (ChatResult.ok s)) ∧
    (∀ s, (chat envHello 1 "a1" "t1" "hi").res = RRes.ok (ChatResult.ok s) →
      s = "" →
      ∃ r, envHello.responsesCreate "gpt-4o-mini"
          [("system", sysPromptText), ("user", pyStrip "hi")] = .ok r ∧
        r.output_text = some "")) :=
  C1_amended_total_reply envHello 1 "a1" "t1" "hi" (by decide) (by decide)

theorem pollLoop_reach {env : Env} {tid rid : String} {runs : Nat → RunObj}
    (hruns : ∀ j, env.retrieveRun tid rid j = .ok (runs j))
    (hid : ∀ j, (runs j).id = rid) :
    ∀ (k i fuel : Nat),
      (∀ j, i ≤ j → j < i + k → isTerminal (runs j).status = false) →
      isTerminal (runs (i + k)).status = true → k < fuel →
      pollLoop env tid fuel i rid = ⟨.ok (runs (i + k)), pollTrace tid rid k⟩ := by
  intro k
  induction k with
  | zero =>
    intro i fuel _ hterm hfuel
    cases fuel with
    | zero => exact absurd hfuel (Nat.not_lt_zero 0)
    | succ f =>
      unfold pollLoop
      rw [hruns i]
      simp only [Nat.add_zero] at hterm
      simp [hterm, pollTrace]
  | succ k ih =>
    intro i fuel hbefore hterm hfuel
    cases fuel with
    | zero => exact absurd hfuel (Nat.not_lt_zero _)
    | succ f =>
      unfold pollLoop
      rw [hruns i]
      have hnt : isTerminal (runs i).status = false :=
        hbefore i (Nat.le_refl i) (by omega)
      simp only [hnt]
      rw [hid i]
      have hsh : i + 1 + k = i + (k + 1) := by omega
      have := ih (i + 1) f
        (fun j hj1 hj2 => hbefore j (by omega) (by omega))
        (by rw [hsh]; exact hterm) (by omega)
      rw [this]
      simp [pollTrace, hsh]

theorem pollLoop_never (tid : String) :
    ∀ (fuel i : Nat) (rid : String),
      (pollLoop envNeverTerminal tid fuel i rid).res = RRes.diverge := by
  intro fuel
  induction fuel with
  | zero => intro i rid; rfl
  | succ f ih =>
    intro i rid
    unfold pollLoop
    simp only [envNeverTerminal]
    exact ih (i + 1) "run1"

/-- C7 counterexample: the polling loop has no iteration bound — against
a remote whose run status is forever `in_progress` it never terminates,
for every fuel bound, so the claim's required configurable upper bound
does not exist in this implementation. -/
theorem C7_counterexample : ¬ pollTerminates envNeverTerminal "t1" "run1" :=
  fun ⟨fuel, h⟩ => h (pollLoop_never "t1" fuel 0 "run1")

/-- C7 (amended): the poller re-fetches the run's status, sleeping the
fixed 0.6-time-unit interval between consecutive fetches, and exits
exactly when the fetched status first lies in the terminal set
{completed, failed, cancelled, expired, requires_action}, returning that
run (trace: one fetch per observed status, one sleep between fetches);
the poller only ever returns a run with terminal status.  No iteration
bound exists in the implementation: the claim's MUST-requirement of a
configurable bound is not met (see the counterexample). -/
theorem C7_poller_amended
    {env : Env} {tid rid : String} {runs : Nat → RunObj} {k fuel : Nat}
    (hruns : ∀ j, env.retrieveRun tid rid j = .ok (runs j))
    (hid : ∀ j, (runs j).id = rid)
    (hbefore : ∀ j, j < k → isTerminal (runs j).status = false)
    (hterm : isTerminal (runs k).status = true)
    (hfuel : k < fuel) :
    pollLoop env tid fuel 0 rid = ⟨.ok (runs k), pollTrace tid rid k⟩ ∧
    (∀ (fuel' i : Nat) (rid' : String) (run : RunObj),
      (pollLoop env tid fuel' i rid').res = .ok run →
      isTerminal run.status = true) := by
  constructor
  · have := pollLoop_reach hruns hid k 0 fuel
      (fun j hj1 hj2 => hbefore j (by omega)) (by simpa using hterm) hfuel
    simpa using this
  · intro fuel' i rid' run h
    exact pollLoop_ok_terminal h

/-- C7 witness: with statuses `queued`, `in_progress`, `completed`, the
poller returns the completed run at the third fetch, with two sleeps of
the fixed interval in its trace. -/
theorem C7_witness :
    pollLoop envLateCompleted "t1" 3 0 "run1" =
      ⟨RRes.ok ⟨"run1", "completed", none⟩, pollTrace "t1" "run1" 2⟩ :=
  (@C7_poller_amended envLateCompleted "t1" "run1"
    (fun i => ⟨"run1",
      if i = 0 then "queued" else if i = 1 then "in_progress" else "completed",
      none⟩) 2 3
    (fun j => rfl) (fun j => rfl) (by decide) (by decide) (by omega)).1

/-- C8: when the run's terminal status is not `completed`, the handler
routes through the stateless fallback and returns its extracted text:
the top-level `output_text` is preferred when the attribute is available,
otherwise the first non-empty text value among `"message"`-kind output
items is taken, and the fixed sentinel is substituted when both yield
nothing. -/
theorem C8_fallback_responder
    {env : Env} {fuel : Nat} {aid tid msg : String} {m0 : Message}
    {run0 run1 : RunObj} {resp : RespObj}
    (h1 : pyStrip tid ≠ "") (h2 : pyStrip msg ≠ "")
    (h3 : env.appendMessage (pyStrip tid) "user" (pyStrip msg) = .ok m0)
    (h4 : env.createRun (pyStrip tid) aid = .ok run0)
    (h5 : env.retrieveRun (pyStrip tid) run0.id 0 = .ok run1)
    (h6 : isTerminal run1.status = true)
    (h7 : run1.status ≠ "completed")
    (h8 : env.responsesCreate "gpt-4o-mini"
        [("system", sysPromptText), ("user", pyStrip msg)] = .ok resp) :
    (chat env (fuel + 1) aid tid msg).res = .ok (.ok (fallbackText resp)) ∧
    (∀ t, resp.output_text = some t → fallbackText resp = t) ∧
    (∀ out v, resp.output_text = none → resp.output = some out →
      fbFromItems out = some v → fallbackText resp = v) ∧
    (resp.output_text = none →
      (match resp.output with
       | some out => fbFromItems out
       | none => none) = (none : Option String) →
      fallbackText resp = fbSentinel) := by
  refine ⟨?_, fun t ht => fallbackText_of_output_text ht,
    fun out v hn ho hv => fallbackText_manual hn ho hv,
    fun hn ho => fallbackText_sentinel hn ho⟩
  apply chat_res_of_try h1 h2
  have hra : (run_assistant_and_get_reply env (fuel + 1) aid
      (pyStrip tid) (pyStrip msg)).res = .ok (failure_reply run1) := by
    rw [run_assistant_res_first_poll h3 h4 h5 h6, if_neg h7]
  have hcall : (callRemote
      (Effect.responsesCreate "gpt-4o-mini"
        [("system", sysPromptText), ("user", pyStrip msg)])
      (env.responsesCreate "gpt-4o-mini"
        [("system", sysPromptText), ("user", pyStrip msg)])).res = .ok resp := by
    rw [callRemote_ok h8]
  unfold chatTry
  rw [TR.res_of_bind_ok hra, if_pos (failure_reply_starts run1),
    TR.res_of_bind_ok hcall]

/-- C8 witness: run fails with `last_error = {code: "x", message: "y"}`
and the fallback capability returns `"backup-answer"`: the turn returns
`"backup-answer"`. -/
theorem C8_witness :
    (chat envFailedBackup 1 "a1" "t1" "hi").res =
      RRes.ok (ChatResult.ok "backup-answer") :=
  (@C8_fallback_responder envFailedBackup 0 "a1" "t1" "hi"
    (mkMsg "user" "hi") ⟨"run1", "queued", none⟩
    ⟨"run1", "failed", some ⟨some "x", some "y"⟩⟩ ⟨some "backup-answer", none⟩
    (by decide) (by decide) rfl rfl rfl (by decide) (by decide) rfl).1

theorem extractionRead_not_mutating {op : Effect}
    (h : op.isExtractionRead = true) : op.isMutating = false := by
  cases op <;> simp [Effect.isExtractionRead, Effect.isMutating] at h ⊢

/-- C9: the reply resolver is deterministic over its remote reads — two
environments agreeing on the step list, message retrieval and message
list capabilities produce identical results and traces — and its trace
contains only the read-only extraction calls (step list, message
retrieve, message list): no mutating remote operation is issued. -/
theorem C9_resolver_deterministic_readonly
    {env env' : Env} {tid rid : String}
    (h1 : env.listSteps = env'.listSteps)
    (h2 : env.retrieveMessage = env'.retrieveMessage)
    (h3 : env.listMessages = env'.listMessages) :
    resolveReply env tid rid = resolveReply env' tid rid ∧
    (∀ op ∈ (resolveReply env tid rid).ops, op.isExtractionRead = true) ∧
    (∀ op ∈ (resolveReply env tid rid).ops, op.isMutating = false) := by
  refine ⟨resolveReply_congr h1 h2 h3, fun op hop => resolveReply_ops_read hop,
    fun op hop => extractionRead_not_mutating (resolveReply_ops_read hop)⟩

/-- C9 witness: the deterministic read-only property instantiated at the
concrete completed-run environment. -/
theorem C9_witness :
    resolveReply envHello "t1" "run1" = resolveReply envHello "t1" "run1" ∧
    (∀ op ∈ (resolveReply envHello "t1" "run1").ops,
      op.isExtractionRead = true) ∧
    (∀ op ∈ (resolveReply envHello "t1" "run1").ops, op.isMutating = false) :=
  @C9_resolver_deterministic_readonly envHello envHello "t1" "run1" rfl rfl rfl

/-- C10: the fallback decision is string-prefix matching on the returned
reply — for a completed run whose genuinely extracted assistant text
itself starts with `"[assistant failed]"`, the handler discards the
extracted reply and returns the stateless fallback's text instead. -/
theorem C10_prefix_collision
    {env : Env} {fuel : Nat} {aid tid msg : String} {m0 : Message}
    {run0 run1 : RunObj} {v : String} {resp : RespObj}
    (h1 : pyStrip tid ≠ "") (h2 : pyStrip msg ≠ "")
    (h3 : env.appendMessage (pyStrip tid) "user" (pyStrip msg) = .ok m0)
    (h4 : env.createRun (pyStrip tid) aid = .ok run0)
    (h5 : env.retrieveRun (pyStrip tid) run0.id 0 = .ok run1)
    (h6 : run1.status = "completed")
    (hres : (resolveReply env (pyStrip tid) run1.id).res = .ok v)
    (hpre : pyStartsWith v "[assistant failed]" = true)
    (h8 : env.responsesCreate "gpt-4o-mini"
        [("system", sysPromptText), ("user", pyStrip msg)] = .ok resp) :
    (chat env (fuel + 1) aid tid msg).res = .ok (.ok (fallbackText resp)) := by
  apply chat_res_of_try h1 h2
  have hra : (run_assistant_and_get_reply env (fuel + 1) aid
      (pyStrip tid) (pyStrip msg)).res = .ok v := by
    rw [run_assistant_res_first_poll h3 h4 h5 (by rw [h6]; decide), if_pos h6]
    exact hres
  have hcall : (callRemote
      (Effect.responsesCreate "gpt-4o-mini"
        [("system", sysPromptText), ("user", pyStrip msg)])
      (env.responsesCreate "gpt-4o-mini"
        [("system", sysPromptText), ("user", pyStrip msg)])).res = .ok resp := by
    rw [callRemote_ok h8]
  unfold chatTry
  rw [TR.res_of_bind_ok hra, if_pos hpre, TR.res_of_bind_ok hcall]

/-- C10 witness: the run completes and genuinely extracts
`"[assistant failed] just kidding"`; the handler nevertheless returns the
fallback's `"real-answer"`. -/
theorem C10_witness :
    (chat envPrefixCollision 1 "a1" "t1" "hi").res =
      RRes.ok (ChatResult.ok "real-answer") :=
  @C10_prefix_collision envPrefixCollision 0 "a1" "t1" "hi"
    (mkMsg "user" "hi") ⟨"run1", "queued", none⟩ ⟨"run1", "completed", none⟩
    "[assistant failed] just kidding" ⟨some "real-answer", none⟩
    (by decide) (by decide) rfl rfl rfl rfl (by decide) (by decide) rfl

end Bridge
